import Mathlib

/-!
Verification of the runway CFNgin orchestration layer: shallow embedding of
the diff engine (`src/runway/cfngin/actions/diff.py`), the blueprint variable
resolution functions (`src/runway/cfngin/blueprints/base.py`) and the hook
execution loop (`src/runway/cfngin/hooks/utils.py`), together with theorems
checking the natural-language specification against them.
-/

namespace Runway

/-! ## Python value model

The repository passes around plain Python values (dict values, variable
values).  We model the fragment of Python values the code manipulates:
`None`, booleans, integers and strings, together with Python `==` equality
(under which `True == 1` and `False == 0`, since `bool` subclasses `int`),
`str()` rendering, and the runtime type of a value as used by `isinstance`.
-/

inductive PyVal
| none
| bool (b : Bool)
| int (n : Int)
| str (s : String)
deriving DecidableEq

/-- Python `==` on the modelled value fragment.  `None` is only equal to
itself; `bool` compares equal to the corresponding `int` because Python's
`bool` is a subclass of `int`. -/
def pyEq : PyVal → PyVal → Bool
| PyVal.none, PyVal.none => true
| PyVal.bool a, PyVal.bool b => a == b
| PyVal.int a, PyVal.int b => a == b
| PyVal.str a, PyVal.str b => a == b
| PyVal.bool a, PyVal.int b => (if a then (1 : Int) else 0) == b
| PyVal.int a, PyVal.bool b => a == (if b then (1 : Int) else 0)
| _, _ => false

/-- Python `str()` on the modelled value fragment. -/
def pyStr : PyVal → String
| PyVal.none => "None"
| PyVal.bool b => if b then "True" else "False"
| PyVal.int n => toString n
| PyVal.str s => s

/-- Python runtime types of the modelled values. -/
inductive PyType
| noneT
| boolT
| intT
| strT
deriving DecidableEq

/-- Runtime type of a value, as `type(value)` would report it. -/
def typeOf : PyVal → PyType
| PyVal.none => PyType.noneT
| PyVal.bool _ => PyType.boolT
| PyVal.int _ => PyType.intT
| PyVal.str _ => PyType.strT

/-- Python `isinstance(value, t)` for the modelled types.  A `bool` is an
instance of `int` because `bool` is a strict subclass of `int` in Python. -/
def isinstance (v : PyVal) (t : PyType) : Bool :=
  typeOf v == t || (typeOf v == PyType.boolT && t == PyType.intT)

/-- Rendering of a type by `%s` formatting (CPython prints
`<class 'int'>` and so on). -/
def pyTypeStr : PyType → String
| PyType.noneT => "<class \x27NoneType\x27>"
| PyType.boolT => "<class \x27bool\x27>"
| PyType.intT => "<class \x27int\x27>"
| PyType.strT => "<class \x27str\x27>"

/-- Python `repr()` on the modelled fragment (strings gain quotes). -/
def pyRepr : PyVal → String
| PyVal.str s => "\x27" ++ s ++ "\x27"
| v => pyStr v

/-! ## Dictionaries

Python dictionaries with string keys are modelled as association lists whose
key lists are `Nodup` (a Python dict cannot hold a key twice); the theorems
carry that hypothesis explicitly. -/

/-- Value of `d[k]`, with `PyVal.none` as the (never hit on the call sites
below) default. -/
def dget (d : List (String × PyVal)) (k : String) : PyVal :=
  (d.lookup k).getD PyVal.none

/-! ## Diff engine — `src/src/runway/cfngin/actions/diff.py` -/

/-- Classification constants of `DictValue` (the class attributes `ADDED`,
`REMOVED`, `MODIFIED`, `UNMODIFIED`). -/
inductive DiffClass
| ADDED
| REMOVED
| MODIFIED
| UNMODIFIED
deriving DecidableEq

/-- One key's before/after comparison record (`DictValue.__init__`). -/
structure DictValue where
  key : String
  old_value : PyVal
  new_value : PyVal
deriving DecidableEq

/-- Translation of `DictValue.status`: first Python `==` of old and new value,
then `is None` checks on the old and the new value, else `MODIFIED`. -/
def DictValue.status (dv : DictValue) : DiffClass :=
  if pyEq dv.old_value dv.new_value then DiffClass.UNMODIFIED
  else if dv.old_value = PyVal.none then DiffClass.ADDED
  else if dv.new_value = PyVal.none then DiffClass.REMOVED
  else DiffClass.MODIFIED

/-- Keys only in the new dict (`added_set = new_set - old_set`). -/
def added_set (old_dict new_dict : List (String × PyVal)) : List String :=
  (new_dict.map Prod.fst).filter (fun k => !(old_dict.map Prod.fst).contains k)

/-- Keys only in the old dict (`removed_set = old_set - new_set`). -/
def removed_set (old_dict new_dict : List (String × PyVal)) : List String :=
  (old_dict.map Prod.fst).filter (fun k => !(new_dict.map Prod.fst).contains k)

/-- Keys in both dicts (`common_set = old_set & new_set`). -/
def common_set (old_dict new_dict : List (String × PyVal)) : List String :=
  (old_dict.map Prod.fst).filter (fun k => (new_dict.map Prod.fst).contains k)

/-- Entries appended by the three loops of `diff_dictionaries`, before the
final `output.sort(key=attrgetter("key"))`.  A key only in `new_dict` is
recorded with `old_value = None`, a key only in `old_dict` with
`new_value = None`, a common key with the two dict values. -/
def diff_output_unsorted (old_dict new_dict : List (String × PyVal)) :
    List DictValue :=
  (added_set old_dict new_dict).map
      (fun k => DictValue.mk k PyVal.none (dget new_dict k))
  ++ (removed_set old_dict new_dict).map
      (fun k => DictValue.mk k (dget old_dict k) PyVal.none)
  ++ (common_set old_dict new_dict).map
      (fun k => DictValue.mk k (dget old_dict k) (dget new_dict k))

/-- The `changes` counter of `diff_dictionaries`: one per added key, one per
removed key, and one per common key whose values have different `str()`
representations. -/
def diff_changes (old_dict new_dict : List (String × PyVal)) : Nat :=
  (added_set old_dict new_dict).length
    + (removed_set old_dict new_dict).length
    + ((common_set old_dict new_dict).filter
        (fun k => pyStr (dget old_dict k) != pyStr (dget new_dict k))).length

/-- Comparison used by `output.sort(key=attrgetter("key"))`. -/
def keyLe (a b : DictValue) : Prop := a.key ≤ b.key

instance : DecidableRel keyLe := fun a b =>
  inferInstanceAs (Decidable (a.key ≤ b.key))

instance : IsTotal DictValue keyLe := ⟨fun a b => le_total a.key b.key⟩

instance : IsTrans DictValue keyLe := ⟨fun _ _ _ h h' => le_trans h h'⟩

/-- Translation of `diff_dictionaries(old_dict, new_dict)`: the `changes`
count and the entry list sorted by key (Python's stable sort; with distinct
keys any stable comparison sort produces the same list). -/
def diff_dictionaries (old_dict new_dict : List (String × PyVal)) :
    Nat × List DictValue :=
  (diff_changes old_dict new_dict,
   List.insertionSort keyLe (diff_output_unsorted old_dict new_dict))

/-- Translation of `diff_parameters(old_params, new_params)`: empty list when
`changes == 0`, the full `diff_dictionaries` list otherwise. -/
def diff_parameters (old_params new_params : List (String × PyVal)) :
    List DictValue :=
  let r := diff_dictionaries old_params new_params
  if r.1 = 0 then [] else r.2

/-! ## Spec-side classification definitions

`claimedStatus` follows the specification sentence word for word (key only in
new ⇒ ADDED; key only in old ⇒ REMOVED; key in both with string-equal
representations ⇒ UNMODIFIED; otherwise MODIFIED).  `amendedStatus` follows
the amended claim (Python `==` decides UNMODIFIED, then `None` on the old or
new side decides ADDED/REMOVED).  `countedAsChange` follows the amended
count claim (an entry is counted when its key is missing on one side or the
string representations of its two values differ). -/

/-- Classification of a key exactly as the specification claims it. -/
def claimedStatus (old_dict new_dict : List (String × PyVal)) (k : String) :
    DiffClass :=
  match old_dict.lookup k, new_dict.lookup k with
  | Option.none, Option.some _ => DiffClass.ADDED
  | Option.some _, Option.none => DiffClass.REMOVED
  | Option.some ov, Option.some nv =>
      if pyStr ov = pyStr nv then DiffClass.UNMODIFIED else DiffClass.MODIFIED
  | Option.none, Option.none => DiffClass.UNMODIFIED

/-- Classification of a key as the amended claim states it: Python-equal
values are UNMODIFIED (so a key present on one side with value `None` is
UNMODIFIED); otherwise an absent or `None` old side means ADDED, an absent
or `None` new side means REMOVED, and anything else is MODIFIED. -/
def amendedStatus (old_dict new_dict : List (String × PyVal)) (k : String) :
    DiffClass :=
  match old_dict.lookup k, new_dict.lookup k with
  | Option.none, Option.some v =>
      if v = PyVal.none then DiffClass.UNMODIFIED else DiffClass.ADDED
  | Option.some v, Option.none =>
      if v = PyVal.none then DiffClass.UNMODIFIED else DiffClass.REMOVED
  | Option.some ov, Option.some nv =>
      if pyEq ov nv then DiffClass.UNMODIFIED
      else if ov = PyVal.none then DiffClass.ADDED
      else if nv = PyVal.none then DiffClass.REMOVED
      else DiffClass.MODIFIED
  | Option.none, Option.none => DiffClass.UNMODIFIED

/-- Predicate of the amended count claim: a key contributes to `changes`
when it is missing from one of the two mappings or the `str()`
representations of its two values differ. -/
def countedAsChange (old_dict new_dict : List (String × PyVal)) (k : String) :
    Bool :=
  match old_dict.lookup k, new_dict.lookup k with
  | Option.some ov, Option.some nv => pyStr ov != pyStr nv
  | _, _ => true

/-! ## Helper lemmas about lookups, key sets and the diff output -/

lemma lookup_eq_none {l : List (String × PyVal)} {k : String}
    (h : k ∉ l.map Prod.fst) : l.lookup k = Option.none := by
  induction l with
  | nil => rfl
  | cons p t ih =>
    simp only [List.map_cons, List.mem_cons, not_or] at h
    rw [List.lookup]
    have hb : (k == p.1) = false := by simpa [beq_iff_eq] using h.1
    rw [hb]
    exact ih h.2

lemma exists_lookup_of_mem {l : List (String × PyVal)} {k : String}
    (h : k ∈ l.map Prod.fst) : ∃ v, l.lookup k = Option.some v := by
  induction l with
  | nil => simp at h
  | cons p t ih =>
    rw [List.lookup]
    by_cases hk : k = p.1
    · subst hk; simp
    · have hb : (k == p.1) = false := by simpa [beq_iff_eq] using hk
      rw [hb]
      apply ih
      simp only [List.map_cons, List.mem_cons] at h
      tauto

lemma dget_eq_of_lookup {l : List (String × PyVal)} {k : String} {v : PyVal}
    (h : l.lookup k = Option.some v) : dget l k = v := by
  simp [dget, h]

lemma pyEq_none_left (v : PyVal) : pyEq PyVal.none v = true ↔ v = PyVal.none := by
  cases v <;> simp [pyEq]

lemma pyEq_none_right (v : PyVal) : pyEq v PyVal.none = true ↔ v = PyVal.none := by
  cases v <;> simp [pyEq]

lemma mem_added_set {old_dict new_dict : List (String × PyVal)} {k : String} :
    k ∈ added_set old_dict new_dict ↔
      k ∈ new_dict.map Prod.fst ∧ k ∉ old_dict.map Prod.fst := by
  simp [added_set, List.mem_filter, List.contains]

lemma mem_removed_set {old_dict new_dict : List (String × PyVal)} {k : String} :
    k ∈ removed_set old_dict new_dict ↔
      k ∈ old_dict.map Prod.fst ∧ k ∉ new_dict.map Prod.fst := by
  simp [removed_set, List.mem_filter, List.contains]

lemma mem_common_set {old_dict new_dict : List (String × PyVal)} {k : String} :
    k ∈ common_set old_dict new_dict ↔
      k ∈ old_dict.map Prod.fst ∧ k ∈ new_dict.map Prod.fst := by
  simp [common_set, List.mem_filter, List.contains]

lemma diff_output_perm (old_dict new_dict : List (String × PyVal)) :
    ((diff_dictionaries old_dict new_dict).2).Perm
      (diff_output_unsorted old_dict new_dict) :=
  List.perm_insertionSort keyLe _

lemma diff_output_unsorted_map_key (old_dict new_dict : List (String × PyVal)) :
    (diff_output_unsorted old_dict new_dict).map DictValue.key =
      added_set old_dict new_dict ++ removed_set old_dict new_dict
        ++ common_set old_dict new_dict := by
  simp only [diff_output_unsorted, List.map_append, List.map_map]
  rw [show (DictValue.key ∘ fun k => DictValue.mk k PyVal.none (dget new_dict k)) = id from rfl,
    show (DictValue.key ∘ fun k => DictValue.mk k (dget old_dict k) PyVal.none) = id from rfl,
    show (DictValue.key ∘ fun k => DictValue.mk k (dget old_dict k) (dget new_dict k)) = id from rfl,
    List.map_id, List.map_id, List.map_id, List.append_assoc]

/-- The `changes` counter equals the number of output entries whose key
satisfies `countedAsChange`. -/
lemma diff_changes_eq_countP (old_dict new_dict : List (String × PyVal)) :
    diff_changes old_dict new_dict =
      List.countP (fun dv => countedAsChange old_dict new_dict dv.key)
        (diff_dictionaries old_dict new_dict).2 := by
  rw [(diff_output_perm old_dict new_dict).countP_eq]
  rw [diff_output_unsorted, List.countP_append, List.countP_append]
  rw [List.countP_map, List.countP_map, List.countP_map]
  have hadd :
      List.countP
        ((fun dv => countedAsChange old_dict new_dict dv.key) ∘
          fun k => DictValue.mk k PyVal.none (dget new_dict k))
        (added_set old_dict new_dict) = (added_set old_dict new_dict).length := by
    rw [List.countP_eq_length]
    intro k hk
    have h := (mem_added_set.1 hk).2
    simp [Function.comp, countedAsChange, lookup_eq_none h]
  have hrem :
      List.countP
        ((fun dv => countedAsChange old_dict new_dict dv.key) ∘
          fun k => DictValue.mk k (dget old_dict k) PyVal.none)
        (removed_set old_dict new_dict) =
        (removed_set old_dict new_dict).length := by
    rw [List.countP_eq_length]
    intro k hk
    have h := (mem_removed_set.1 hk).2
    simp [Function.comp, countedAsChange, lookup_eq_none h]
  have hcom :
      List.countP
        ((fun dv => countedAsChange old_dict new_dict dv.key) ∘
          fun k => DictValue.mk k (dget old_dict k) (dget new_dict k))
        (common_set old_dict new_dict) =
        ((common_set old_dict new_dict).filter
          (fun k => pyStr (dget old_dict k) != pyStr (dget new_dict k))).length := by
    rw [List.countP_eq_length_filter]
    congr 1
    apply List.filter_congr
    intro k hk
    obtain ⟨hko, hkn⟩ := mem_common_set.1 hk
    obtain ⟨ov, hov⟩ := exists_lookup_of_mem hko
    obtain ⟨nv, hnv⟩ := exists_lookup_of_mem hkn
    simp [Function.comp, countedAsChange, hov, hnv,
      dget_eq_of_lookup hov, dget_eq_of_lookup hnv]
  rw [hadd, hrem, hcom]
  rfl

/-! ## Claims C1, C2 and C10 — the diff engine -/

/-- C1 counterexample: on `old = {}`, `new = {"a": None}` the specification
classifies the key `"a"` (present only in `new`) as `ADDED`, but
`DictValue.status` reports `UNMODIFIED`, because the entry is stored as
`DictValue("a", None, None)` and its two values compare equal. -/
theorem diff_status_claim_counterexample :
    ¬ (∀ dv ∈ (diff_dictionaries [] [("a", PyVal.none)]).2,
        dv.status = claimedStatus [] [("a", PyVal.none)] dv.key) := by
  decide

/-- C1 (corrected): every entry of `diff_dictionaries old new` carries the
old and new value of its key (`None` standing for an absent side), and its
classification follows Python `==` first and `None`-checks second: equal
values are `UNMODIFIED` (so a key present on only one side with value `None`
is `UNMODIFIED` rather than `ADDED`/`REMOVED`); otherwise an absent or
`None` old side gives `ADDED`, an absent or `None` new side gives
`REMOVED`, and anything else gives `MODIFIED`.  String representations play
no role in the classification. -/
theorem diff_status_amended (old_dict new_dict : List (String × PyVal)) :
    ∀ dv ∈ (diff_dictionaries old_dict new_dict).2,
      dv.old_value = dget old_dict dv.key ∧
      dv.new_value = dget new_dict dv.key ∧
      dv.status = amendedStatus old_dict new_dict dv.key := by
  intro dv hdv
  have hdv' : dv ∈ diff_output_unsorted old_dict new_dict :=
    ((diff_output_perm old_dict new_dict).mem_iff).1 hdv
  rcases List.mem_append.1 hdv' with h | h
  · rcases List.mem_append.1 h with h | h
    · -- entry produced by the added-keys loop
      obtain ⟨k, hk, rfl⟩ := List.mem_map.1 h
      obtain ⟨hkn, hko⟩ := mem_added_set.1 hk
      obtain ⟨nv, hnv⟩ := exists_lookup_of_mem hkn
      have ho := lookup_eq_none hko
      refine ⟨by simp [dget, ho], rfl, ?_⟩
      by_cases hn : nv = PyVal.none
      · subst hn
        simp [DictValue.status, amendedStatus, ho, hnv,
          dget_eq_of_lookup hnv, pyEq]
      · have hpe : pyEq PyVal.none nv = false := by
          apply Bool.eq_false_iff.mpr
          intro hb
          exact hn ((pyEq_none_left nv).1 hb)
        simp [DictValue.status, amendedStatus, ho, hnv,
          dget_eq_of_lookup hnv, hpe, hn]
    · -- entry produced by the removed-keys loop
      obtain ⟨k, hk, rfl⟩ := List.mem_map.1 h
      obtain ⟨hko, hkn⟩ := mem_removed_set.1 hk
      obtain ⟨ov, hov⟩ := exists_lookup_of_mem hko
      have hn := lookup_eq_none hkn
      refine ⟨rfl, by simp [dget, hn], ?_⟩
      by_cases hv : ov = PyVal.none
      · subst hv
        simp [DictValue.status, amendedStatus, hn, hov,
          dget_eq_of_lookup hov, pyEq]
      · have hpe : pyEq ov PyVal.none = false := by
          apply Bool.eq_false_iff.mpr
          intro hb
          exact hv ((pyEq_none_right ov).1 hb)
        simp [DictValue.status, amendedStatus, hn, hov,
          dget_eq_of_lookup hov, hpe, hv]
  · -- entry produced by the common-keys loop
    obtain ⟨k, hk, rfl⟩ := List.mem_map.1 h
    obtain ⟨hko, hkn⟩ := mem_common_set.1 hk
    obtain ⟨ov, hov⟩ := exists_lookup_of_mem hko
    obtain ⟨nv, hnv⟩ := exists_lookup_of_mem hkn
    refine ⟨rfl, rfl, ?_⟩
    simp [DictValue.status, amendedStatus, hov, hnv,
      dget_eq_of_lookup hov, dget_eq_of_lookup hnv]

/-- Witness for C1: concrete modified entry checked through the theorem. -/
theorem diff_status_amended_witness :
    DictValue.mk "a" (PyVal.int 1) (PyVal.str "1") ∈
        (diff_dictionaries [("a", PyVal.int 1)] [("a", PyVal.str "1")]).2 ∧
      (DictValue.mk "a" (PyVal.int 1) (PyVal.str "1")).status =
        amendedStatus [("a", PyVal.int 1)] [("a", PyVal.str "1")] "a" :=
  ⟨by decide, (diff_status_amended _ _ _ (by decide)).2.2⟩

/-- C2 counterexample: on `old = {}`, `new = {"a": None}` the returned
change count is `1` although every returned entry (the single
`DictValue("a", None, None)`) is classified `UNMODIFIED`, so the count does
not equal the number of non-`UNMODIFIED` entries. -/
theorem diff_changes_claim_counterexample :
    ¬ ((diff_dictionaries [] [("a", PyVal.none)]).1 =
        ((diff_dictionaries [] [("a", PyVal.none)]).2.filter
          (fun dv => decide (dv.status ≠ DiffClass.UNMODIFIED))).length) := by
  decide

/-- C2 (corrected): `diff_dictionaries` returns a pair `(changes, list)`
where `changes` equals the number of returned entries whose key is missing
from one of the two mappings or whose two values have different string
representations (which can differ from the number of non-`UNMODIFIED`
entries), and the returned list contains exactly one entry per key present
in either mapping, sorted by key in ascending order. -/
theorem diff_dictionaries_amended (old_dict new_dict : List (String × PyVal))
    (hold : (old_dict.map Prod.fst).Nodup)
    (hnew : (new_dict.map Prod.fst).Nodup) :
    (diff_dictionaries old_dict new_dict).1 =
        ((diff_dictionaries old_dict new_dict).2.filter
          (fun dv => countedAsChange old_dict new_dict dv.key)).length
      ∧ List.Sorted (· ≤ ·)
          ((diff_dictionaries old_dict new_dict).2.map DictValue.key)
      ∧ ((diff_dictionaries old_dict new_dict).2.map DictValue.key).Nodup
      ∧ ∀ k, k ∈ (diff_dictionaries old_dict new_dict).2.map DictValue.key ↔
          (k ∈ old_dict.map Prod.fst ∨ k ∈ new_dict.map Prod.fst) := by
  refine ⟨?_, ?_, ?_, ?_⟩
  · rw [← List.countP_eq_length_filter]
    exact diff_changes_eq_countP old_dict new_dict
  · have hs := List.sorted_insertionSort keyLe (diff_output_unsorted old_dict new_dict)
    exact List.pairwise_map.mpr hs
  · have hperm := (diff_output_perm old_dict new_dict).map DictValue.key
    rw [hperm.nodup_iff, diff_output_unsorted_map_key]
    have hA : (added_set old_dict new_dict).Nodup := hnew.filter _
    have hB : (removed_set old_dict new_dict).Nodup := hold.filter _
    have hC : (common_set old_dict new_dict).Nodup := hold.filter _
    have hAB : List.Disjoint (added_set old_dict new_dict) (removed_set old_dict new_dict) := by
      intro k hka hkb
      exact absurd (mem_removed_set.1 hkb).1 (mem_added_set.1 hka).2
    have hABC : List.Disjoint
        (added_set old_dict new_dict ++ removed_set old_dict new_dict)
        (common_set old_dict new_dict) := by
      intro k hk hkc
      rcases List.mem_append.1 hk with hka | hkb
      · exact absurd (mem_common_set.1 hkc).1 (mem_added_set.1 hka).2
      · exact absurd (mem_common_set.1 hkc).2 (mem_removed_set.1 hkb).2
    exact ((hA.append hB hAB).append hC hABC)
  · intro k
    have hperm := (diff_output_perm old_dict new_dict).map DictValue.key
    rw [hperm.mem_iff, diff_output_unsorted_map_key]
    simp only [List.mem_append, mem_added_set, mem_removed_set, mem_common_set]
    by_cases ho : k ∈ old_dict.map Prod.fst <;>
      by_cases hn : k ∈ new_dict.map Prod.fst <;> simp [ho, hn]

/-- Witness for C2: concrete two-key diff checked through the theorem. -/
theorem diff_dictionaries_amended_witness :
    ([("a", PyVal.int 1)].map (Prod.fst (β := PyVal))).Nodup ∧
    ([("b", PyVal.int 2)].map (Prod.fst (β := PyVal))).Nodup ∧
    ((diff_dictionaries [("a", PyVal.int 1)] [("b", PyVal.int 2)]).1 =
        ((diff_dictionaries [("a", PyVal.int 1)] [("b", PyVal.int 2)]).2.filter
          (fun dv => countedAsChange [("a", PyVal.int 1)] [("b", PyVal.int 2)] dv.key)).length)
    ∧ List.Sorted (· ≤ ·)
        ((diff_dictionaries [("a", PyVal.int 1)] [("b", PyVal.int 2)]).2.map DictValue.key)
    ∧ ((diff_dictionaries [("a", PyVal.int 1)] [("b", PyVal.int 2)]).2.map DictValue.key).Nodup :=
  ⟨by decide, by decide,
    (diff_dictionaries_amended _ _ (by decide) (by decide)).1,
    (diff_dictionaries_amended _ _ (by decide) (by decide)).2.1,
    (diff_dictionaries_amended _ _ (by decide) (by decide)).2.2.1⟩

/-- C10 (confirmed): `diff_parameters` returns the empty list exactly when
`diff_dictionaries` reports zero changes; on a nonzero count it returns the
full `diff_dictionaries` list (including `UNMODIFIED` entries); and when
both mappings have the same keys and every common key's values have equal
string representations it returns the empty list. -/
theorem diff_parameters_spec (old_params new_params : List (String × PyVal)) :
    (diff_parameters old_params new_params = [] ↔
        (diff_dictionaries old_params new_params).1 = 0)
      ∧ ((diff_dictionaries old_params new_params).1 ≠ 0 →
          diff_parameters old_params new_params =
            (diff_dictionaries old_params new_params).2)
      ∧ ((∀ k, k ∈ old_params.map Prod.fst ↔ k ∈ new_params.map Prod.fst) →
          (∀ k ov nv, old_params.lookup k = Option.some ov →
            new_params.lookup k = Option.some nv → pyStr ov = pyStr nv) →
          diff_parameters old_params new_params = []) := by
  have hle : (diff_dictionaries old_params new_params).1 ≤
      (diff_dictionaries old_params new_params).2.length := by
    rw [show (diff_dictionaries old_params new_params).1
        = diff_changes old_params new_params from rfl,
      diff_changes_eq_countP old_params new_params]
    exact List.countP_le_length _
  refine ⟨⟨?_, ?_⟩, ?_, ?_⟩
  · intro h
    by_contra hne
    have heq : diff_parameters old_params new_params =
        (diff_dictionaries old_params new_params).2 := by
      simp [diff_parameters, hne]
    rw [heq] at h
    rw [h] at hle
    simp at hle
    exact hne hle
  · intro h
    simp [diff_parameters, h]
  · intro h
    simp [diff_parameters, h]
  · intro hkeys hstr
    have hzero : (diff_dictionaries old_params new_params).1 = 0 := by
      show diff_changes old_params new_params = 0
      have hA : added_set old_params new_params = [] := by
        rw [added_set, List.filter_eq_nil_iff]
        intro k hk
        have : k ∈ old_params.map Prod.fst := (hkeys k).2 hk
        simp [List.contains, List.elem_iff, this]
      have hB : removed_set old_params new_params = [] := by
        rw [removed_set, List.filter_eq_nil_iff]
        intro k hk
        have : k ∈ new_params.map Prod.fst := (hkeys k).1 hk
        simp [List.contains, List.elem_iff, this]
      have hC : (common_set old_params new_params).filter
          (fun k => pyStr (dget old_params k) != pyStr (dget new_params k)) = [] := by
        rw [List.filter_eq_nil_iff]
        intro k hk
        obtain ⟨hko, hkn⟩ := mem_common_set.1 hk
        obtain ⟨ov, hov⟩ := exists_lookup_of_mem hko
        obtain ⟨nv, hnv⟩ := exists_lookup_of_mem hkn
        simp [dget_eq_of_lookup hov, dget_eq_of_lookup hnv, hstr k ov nv hov hnv]
      rw [diff_changes, hA, hB, hC]
      rfl
    simp [diff_parameters, hzero]

/-- Witness for C10: `{"a": 1}` versus `{"a": "1"}` — the values differ
under direct equality but have equal string representations, so the
returned diff is the empty list. -/
theorem diff_parameters_spec_witness :
    diff_parameters [("a", PyVal.int 1)] [("a", PyVal.str "1")] = [] := by
  refine (diff_parameters_spec _ _).2.2 (fun k => Iff.rfl) ?_
  intro k ov nv h1 h2
  by_cases hk : k = "a"
  · subst hk
    simp [List.lookup] at h1 h2
    rw [← h1, ← h2]
    rfl
  · have hb : (k == "a") = false := by simpa [beq_iff_eq] using hk
    simp [List.lookup, hb] at h1

/-! ## Blueprint variable resolution — `src/runway/cfngin/blueprints/base.py`

Variable definitions are dictionaries with the keys `type`, `default`,
`validator` and `allowed_values`; a provided variable is a
`runway.cfngin.variables.Variable` carrying a name, a value and a resolved
flag.  A declared type is either a `CFNType` instance, a `TroposphereType`
instance (whose external `create` factory we keep abstract as a function
that may raise), or a plain Python type.  Exceptions become the error side
of `Except`. -/

/-- Errors raised by the blueprint layer (`runway.cfngin.exceptions` plus
plain `ValueError`). -/
inductive CfnginError
| variableTypeRequired (blueprint_name var_name : String)
| unresolvedVariable (blueprint_name var_name : String)
| missingVariable (blueprint_name var_name : String)
| validatorError (var_name validator_name : String) (value : PyVal) (exc : String)
| valueError (msg : String)
| invalidUserdataPlaceholder (blueprint_name msg : String)
deriving DecidableEq

/-- Wrapper produced for provider-parameter variables
(`CFNParameter.__init__` after its acceptable-type conversion). -/
structure CFNParameter where
  name : String
  value : PyVal
deriving DecidableEq

/-- Translation of `CFNParameter.__init__`: a string is kept, a bool becomes
the lowercase string, an int becomes its decimal string, and any other
value (here `None`) raises `ValueError`. -/
def cfnParameterInit (name : String) (value : PyVal) :
    Except CfnginError CFNParameter :=
  match value with
  | PyVal.str s => Except.ok (CFNParameter.mk name (PyVal.str s))
  | PyVal.bool b =>
      Except.ok (CFNParameter.mk name (PyVal.str (if b then "true" else "false")))
  | PyVal.int n => Except.ok (CFNParameter.mk name (PyVal.str (toString n)))
  | PyVal.none =>
      Except.error (CfnginError.valueError
        ("CFNParameter (" ++ name ++ ") value must be one of str, int, bool, or list got: None"))

/-- Declared variable type: a `CFNType` instance, a `TroposphereType`
instance (external `create` factory kept abstract), or a plain Python
type. -/
inductive VarType
| cfn
| troposphere (resource_name : String) (create : PyVal → Except String PyVal)
| py (t : PyType)

/-- Value produced by `validate_variable_type`: the raw value, a
`CFNParameter` wrapper, or the object built by a `TroposphereType`
factory. -/
inductive ResolvedValue
| plain (v : PyVal)
| cfnParam (p : CFNParameter)
| tropo (v : PyVal)
deriving DecidableEq

/-- Rendering of a resolved value by `%s` formatting (a `CFNParameter`
prints through its `__repr__`). -/
def strResolved : ResolvedValue → String
| ResolvedValue.plain v => pyStr v
| ResolvedValue.cfnParam p => "CFNParameter(" ++ p.name ++ ": " ++ pyStr p.value ++ ")"
| ResolvedValue.tropo v => pyStr v

/-- Message of the `ValueError` raised on a runtime type mismatch. -/
def typeMismatchMsg (var_name : String) (expected actual : PyType) : String :=
  "Value for variable " ++ var_name ++ " must be of type " ++ pyTypeStr expected
    ++ ". Actual type: " ++ pyTypeStr actual ++ "."

/-- Translation of `validate_variable_type`: a `CFNType` wraps the value in
a `CFNParameter`; a `TroposphereType` calls its `create` factory, wrapping
factory exceptions as `ValidatorError`; any other declared type requires
`isinstance(value, var_type)` or raises `ValueError`. -/
def validate_variable_type (var_name : String) (var_type : VarType)
    (value : PyVal) : Except CfnginError ResolvedValue :=
  match var_type with
  | VarType.cfn => (cfnParameterInit var_name value).map ResolvedValue.cfnParam
  | VarType.troposphere resource_name create =>
      match create value with
      | Except.ok v => Except.ok (ResolvedValue.tropo v)
      | Except.error exc =>
          Except.error (CfnginError.validatorError var_name
            (resource_name ++ ".create") value exc)
  | VarType.py t =>
      if isinstance value t then Except.ok (ResolvedValue.plain value)
      else Except.error (CfnginError.valueError
        (typeMismatchMsg var_name t (typeOf value)))

/-- Translation of `validate_allowed_values`: vacuously true for a missing
or empty `allowed_values` list and for a `CFNParameter` value, otherwise
Python membership (`value in allowed_values`, elementwise `==`). -/
def validate_allowed_values (allowed_values : Option (List PyVal))
    (value : ResolvedValue) : Bool :=
  match allowed_values, value with
  | Option.none, _ => true
  | Option.some [], _ => true
  | Option.some _, ResolvedValue.cfnParam _ => true
  | Option.some avs, ResolvedValue.plain v => avs.any (fun a => pyEq v a)
  | Option.some avs, ResolvedValue.tropo v => avs.any (fun a => pyEq v a)

/-- Python `repr()` of the `allowed_values` attribute as `%s` formats it
(`None` or a list literal). -/
def allowedValuesStr : Option (List PyVal) → String
| Option.none => "None"
| Option.some avs => "[" ++ String.intercalate ", " (avs.map pyRepr) ++ "]"

/-- Message of the `ValueError` raised when a value is outside
`allowed_values`. -/
def allowedValuesMsg (var_name blueprint_name : String) (value : ResolvedValue)
    (allowed_values : Option (List PyVal)) : String :=
  "Invalid value passed to \x27" ++ var_name ++ "\x27 in blueprint: "
    ++ blueprint_name ++ ". Got: \x27" ++ strResolved value
    ++ "\x27, expected one of " ++ allowedValuesStr allowed_values

/-- A validator callback from a variable definition: its `__name__` and the
function itself, which may raise (the error side). -/
structure Validator where
  vname : String
  f : PyVal → Except String PyVal

/-- A variable definition dictionary (`var_def`): the optional `type`,
`default`, `validator` and `allowed_values` keys. -/
structure VarDef where
  type : Option VarType
  default : Option PyVal
  validator : Option Validator
  allowed_values : Option (List PyVal)

/-- A provided `runway.cfngin.variables.Variable`: name, resolved value and
resolved flag. -/
structure Variable where
  name : String
  value : PyVal
  resolved : Bool
deriving DecidableEq

/-- Translation of `resolve_variable`: look up the declared `type` (else
`VariableTypeRequired`); take the provided variable's value if one was
provided (raising `UnresolvedVariable` when it is not resolved), else the
definition's `default` (else `MissingVariable`); apply the optional
validator (`var_def.get("validator", lambda v: v)`), wrapping its
exceptions as `ValidatorError`; coerce through `validate_variable_type`;
finally check `validate_allowed_values`, raising `ValueError` on failure.
Python's raised exceptions become early `Except.error` returns. -/
def resolve_variable (var_name : String) (var_def : VarDef)
    (provided_variable : Option Variable) (blueprint_name : String) :
    Except CfnginError ResolvedValue :=
  match var_def.type with
  | Option.none => Except.error (CfnginError.variableTypeRequired blueprint_name var_name)
  | Option.some var_type =>
    let provided : Except CfnginError PyVal :=
      match provided_variable with
      | Option.some pv =>
          if pv.resolved then Except.ok pv.value
          else Except.error (CfnginError.unresolvedVariable blueprint_name pv.name)
      | Option.none =>
          match var_def.default with
          | Option.some d => Except.ok d
          | Option.none =>
              Except.error (CfnginError.missingVariable blueprint_name var_name)
    match provided with
    | Except.error e => Except.error e
    | Except.ok value0 =>
      let validated : Except CfnginError PyVal :=
        match var_def.validator with
        | Option.none => Except.ok value0
        | Option.some vd =>
            match vd.f value0 with
            | Except.ok v => Except.ok v
            | Except.error exc =>
                Except.error (CfnginError.validatorError var_name vd.vname value0 exc)
      match validated with
      | Except.error e => Except.error e
      | Except.ok value1 =>
        match validate_variable_type var_name var_type value1 with
        | Except.error e => Except.error e
        | Except.ok value2 =>
            if validate_allowed_values var_def.allowed_values value2 then
              Except.ok value2
            else
              Except.error (CfnginError.valueError
                (allowedValuesMsg var_name blueprint_name value2
                  var_def.allowed_values))

/-! ## Claims C3, C4 and C5 — variable resolution -/

/-- C3 counterexample: with declared type `int` and provided value `True`
(a `bool`, a strict subtype of `int` in Python), `resolve_variable`
succeeds even though the runtime type `bool` is not exactly `int`, so the
claim that resolution succeeds only on an exact runtime type match — and
never for a strict subtype — is false. -/
theorem resolve_variable_subtype_counterexample :
    resolve_variable "x"
        (VarDef.mk (Option.some (VarType.py PyType.intT)) Option.none
          Option.none Option.none)
        (Option.some (Variable.mk "x" (PyVal.bool true) true)) "bp"
      = Except.ok (ResolvedValue.plain (PyVal.bool true))
    ∧ typeOf (PyVal.bool true) ≠ PyType.intT
    ∧ isinstance (PyVal.bool true) PyType.intT = true := by
  refine ⟨rfl, by decide, rfl⟩

/-- C3 (corrected): for a declared type that is neither `CFNType` nor
`TroposphereType`, `resolve_variable` succeeds exactly when the value is an
`isinstance` of the declared type — which admits strict subtypes, such as
`bool` for a declared `int` — and otherwise raises a `ValueError` naming
the expected and the actual type. -/
theorem resolve_variable_type_check_amended (var_name blueprint_name nm : String)
    (t : PyType) (v : PyVal) (dflt : Option PyVal) :
    (isinstance v t = true →
      resolve_variable var_name
          (VarDef.mk (Option.some (VarType.py t)) dflt Option.none Option.none)
          (Option.some (Variable.mk nm v true)) blueprint_name
        = Except.ok (ResolvedValue.plain v))
    ∧ (isinstance v t = false →
      resolve_variable var_name
          (VarDef.mk (Option.some (VarType.py t)) dflt Option.none Option.none)
          (Option.some (Variable.mk nm v true)) blueprint_name
        = Except.error (CfnginError.valueError
            (typeMismatchMsg var_name t (typeOf v)))) := by
  constructor
  · intro h
    simp [resolve_variable, validate_variable_type, h, validate_allowed_values]
  · intro h
    simp [resolve_variable, validate_variable_type, h]

/-- Witness for C3: a string value against a declared `str` type resolves
to itself. -/
theorem resolve_variable_type_check_amended_witness :
    resolve_variable "x"
        (VarDef.mk (Option.some (VarType.py PyType.strT)) Option.none
          Option.none Option.none)
        (Option.some (Variable.mk "x" (PyVal.str "s") true)) "bp"
      = Except.ok (ResolvedValue.plain (PyVal.str "s")) :=
  (resolve_variable_type_check_amended "x" "bp" "x" PyType.strT
    (PyVal.str "s") Option.none).1 (by decide)

/-- C4 (confirmed): with a declared type, no provided value and no default,
`resolve_variable` raises `MissingVariable`; with a default, no provided
value, no validator, a plain declared type the default satisfies and a
passing allowed-values check, it returns the default unchanged. -/
theorem resolve_variable_default_missing (var_name blueprint_name : String)
    (t : VarType) (dflt : PyVal) (tp : PyType)
    (vdr : Option Validator) (avs : Option (List PyVal)) :
    (resolve_variable var_name (VarDef.mk (Option.some t) Option.none vdr avs)
        Option.none blueprint_name
      = Except.error (CfnginError.missingVariable blueprint_name var_name))
    ∧ (isinstance dflt tp = true →
       validate_allowed_values avs (ResolvedValue.plain dflt) = true →
       resolve_variable var_name
           (VarDef.mk (Option.some (VarType.py tp)) (Option.some dflt)
             Option.none avs)
           Option.none blueprint_name
         = Except.ok (ResolvedValue.plain dflt)) := by
  constructor
  · simp [resolve_variable]
  · intro h1 h2
    simp [resolve_variable, validate_variable_type, h1, h2]

/-- Witness for C4: no value and no default raises `MissingVariable`; the
default `7` against declared `int` resolves to `7` unchanged. -/
theorem resolve_variable_default_missing_witness :
    (resolve_variable "x"
        (VarDef.mk (Option.some (VarType.py PyType.intT)) Option.none
          Option.none Option.none)
        Option.none "bp"
      = Except.error (CfnginError.missingVariable "bp" "x"))
    ∧ (resolve_variable "x"
        (VarDef.mk (Option.some (VarType.py PyType.intT))
          (Option.some (PyVal.int 7)) Option.none Option.none)
        Option.none "bp"
      = Except.ok (ResolvedValue.plain (PyVal.int 7))) :=
  ⟨(resolve_variable_default_missing "x" "bp" (VarType.py PyType.intT)
      (PyVal.int 7) PyType.intT Option.none Option.none).1,
   (resolve_variable_default_missing "x" "bp" (VarType.py PyType.intT)
      (PyVal.int 7) PyType.intT Option.none Option.none).2
     (by decide) (by decide)⟩

/-- C5 (confirmed): with a nonempty `allowed_values` list, a resolved plain
value outside the list fails with a `ValueError` and a member succeeds;
a value declared with a `CFNType` is wrapped as a `CFNParameter` and is
exempt from the membership check. -/
theorem resolve_variable_allowed_values (var_name blueprint_name nm : String)
    (t : PyType) (v_bad v_good : PyVal) (avs : List PyVal) (dflt : Option PyVal)
    (p : CFNParameter)
    (hbad_t : isinstance v_bad t = true)
    (hgood_t : isinstance v_good t = true)
    (hbad : avs.any (fun a => pyEq v_bad a) = false)
    (hgood : avs.any (fun a => pyEq v_good a) = true)
    (hne : avs ≠ [])
    (hcfn : cfnParameterInit var_name v_bad = Except.ok p) :
    (resolve_variable var_name
        (VarDef.mk (Option.some (VarType.py t)) dflt Option.none (Option.some avs))
        (Option.some (Variable.mk nm v_bad true)) blueprint_name
      = Except.error (CfnginError.valueError
          (allowedValuesMsg var_name blueprint_name
            (ResolvedValue.plain v_bad) (Option.some avs))))
    ∧ (resolve_variable var_name
        (VarDef.mk (Option.some (VarType.py t)) dflt Option.none (Option.some avs))
        (Option.some (Variable.mk nm v_good true)) blueprint_name
      = Except.ok (ResolvedValue.plain v_good))
    ∧ (resolve_variable var_name
        (VarDef.mk (Option.some VarType.cfn) dflt Option.none (Option.some avs))
        (Option.some (Variable.mk nm v_bad true)) blueprint_name
      = Except.ok (ResolvedValue.cfnParam p)) := by
  rcases avs with _ | ⟨a, l⟩
  · exact absurd rfl hne
  · refine ⟨?_, ?_, ?_⟩
    · simp [resolve_variable, validate_variable_type, hbad_t,
        validate_allowed_values, hbad]
    · simp [resolve_variable, validate_variable_type, hgood_t,
        validate_allowed_values, hgood]
    · simp [resolve_variable, validate_variable_type, hcfn, Except.map,
        validate_allowed_values]

/-- Witness for C5: `allowed_values = ["a", "b"]` — value `"c"` fails,
value `"a"` succeeds, and a `CFNType`-declared `"c"` is exempt. -/
theorem resolve_variable_allowed_values_witness :
    (resolve_variable "x"
        (VarDef.mk (Option.some (VarType.py PyType.strT)) Option.none
          Option.none (Option.some [PyVal.str "a", PyVal.str "b"]))
        (Option.some (Variable.mk "x" (PyVal.str "c") true)) "bp"
      = Except.error (CfnginError.valueError
          (allowedValuesMsg "x" "bp" (ResolvedValue.plain (PyVal.str "c"))
            (Option.some [PyVal.str "a", PyVal.str "b"]))))
    ∧ (resolve_variable "x"
        (VarDef.mk (Option.some (VarType.py PyType.strT)) Option.none
          Option.none (Option.some [PyVal.str "a", PyVal.str "b"]))
        (Option.some (Variable.mk "x" (PyVal.str "a") true)) "bp"
      = Except.ok (ResolvedValue.plain (PyVal.str "a")))
    ∧ (resolve_variable "x"
        (VarDef.mk (Option.some VarType.cfn) Option.none
          Option.none (Option.some [PyVal.str "a", PyVal.str "b"]))
        (Option.some (Variable.mk "x" (PyVal.str "c") true)) "bp"
      = Except.ok (ResolvedValue.cfnParam (CFNParameter.mk "x" (PyVal.str "c")))) :=
  resolve_variable_allowed_values "x" "bp" "x" PyType.strT
    (PyVal.str "c") (PyVal.str "a") [PyVal.str "a", PyVal.str "b"]
    Option.none (CFNParameter.mk "x" (PyVal.str "c"))
    (by decide) (by decide) (by decide) (by decide) (by decide) rfl

/-! ## Hook execution — `src/src/runway/cfngin/hooks/utils.py`

`handle_hooks` loads each enabled hook's handler by path and calls it with
the context and provider.  We model a hook by its configuration fields plus
the observable behaviour of loading and calling its handler (`outcome`):
the load can fail (`AttributeError`/`ImportError`), the call can raise, or
it returns a Python value whose truthiness and mapping-ness drive the rest
of the loop.  `sys.exit(1)` and an uncaught exception are distinct
terminal results. -/

/-- Result value of a hook handler: `None`, a bool, an int, a string, or a
mapping (`collections.Mapping`). -/
inductive HookVal
| noneV
| boolV (b : Bool)
| intV (n : Int)
| strV (s : String)
| mapV (entries : List (String × PyVal))
deriving DecidableEq

/-- Python truthiness of a handler result (`if not result:`). -/
def hookTruthy : HookVal → Bool
| HookVal.noneV => false
| HookVal.boolV b => b
| HookVal.intV n => n != 0
| HookVal.strV s => s != ""
| HookVal.mapV entries => entries != []

/-- Observable behaviour of loading and invoking one hook's handler. -/
inductive HookOutcome
| loadFailure (exc : String)
| raised (exc : String)
| returned (v : HookVal)
deriving DecidableEq

/-- One configured hook (`runway.cfngin.config.Hook`) together with its
handler's behaviour. -/
structure Hook where
  path : String
  data_key : Option String
  required : Bool
  enabled : Bool
  outcome : HookOutcome
deriving DecidableEq

/-- Run-scoped context hook data (`context.hook_data`). -/
structure HookCtx where
  hook_data : List (String × List (String × PyVal))
deriving DecidableEq

/-- Modelled from the spec: `context.set_hook_data(data_key, result)` merges
the mapping into the shared run-scoped context data keyed by `data_key`,
overwriting any prior value for that key (`runway.cfngin.context.Context`
is not part of the excerpt). -/
def set_hook_data (ctx : HookCtx) (data_key : String)
    (result : List (String × PyVal)) : HookCtx :=
  HookCtx.mk ((data_key, result) ::
    ctx.hook_data.filter (fun kv => !(kv.1 == data_key)))

/-- Terminal result of `handle_hooks`: normal completion, `sys.exit(code)`,
or an uncaught exception. -/
inductive HookRunResult
| completed (ctx : HookCtx)
| exited (code : Nat) (ctx : HookCtx)
| raisedExc (exc : String) (ctx : HookCtx)
deriving DecidableEq

/-- Translation of the `handle_hooks` loop: a disabled hook is skipped; a
load failure or handler exception is re-raised when the hook is required
and swallowed otherwise; a falsy result calls `sys.exit(1)` when the hook
is required and only logs a warning otherwise; a truthy mapping result with
a configured `data_key` is stored via `set_hook_data`.  An empty hook list
returns immediately. -/
def handle_hooks (hooks : List Hook) (ctx : HookCtx) : HookRunResult :=
  match hooks with
  | [] => HookRunResult.completed ctx
  | hook :: rest =>
    if !hook.enabled then handle_hooks rest ctx
    else
      match hook.outcome with
      | HookOutcome.loadFailure exc =>
          if hook.required then HookRunResult.raisedExc exc ctx
          else handle_hooks rest ctx
      | HookOutcome.raised exc =>
          if hook.required then HookRunResult.raisedExc exc ctx
          else handle_hooks rest ctx
      | HookOutcome.returned result =>
          if !hookTruthy result then
            if hook.required then HookRunResult.exited 1 ctx
            else handle_hooks rest ctx
          else
            match result with
            | HookVal.mapV entries =>
                match hook.data_key with
                | Option.some data_key =>
                    handle_hooks rest (set_hook_data ctx data_key entries)
                | Option.none => handle_hooks rest ctx
            | _ => handle_hooks rest ctx

/-! ## Claims C6 and C9 — hook failure policy -/

/-- C6 (confirmed): for an enabled hook at the head of the list, a falsy
handler result aborts the run with `sys.exit(1)` when the hook is required
and continues with the remaining hooks when it is optional; a handler
exception propagates (aborting the run) when the hook is required and is
swallowed, continuing with the remaining hooks, when it is optional. -/
theorem handle_hooks_failure_policy (hook : Hook) (rest : List Hook)
    (ctx : HookCtx) (henabled : hook.enabled = true) :
    (∀ result, hook.outcome = HookOutcome.returned result →
      hookTruthy result = false →
      (hook.required = true →
        handle_hooks (hook :: rest) ctx = HookRunResult.exited 1 ctx)
      ∧ (hook.required = false →
        handle_hooks (hook :: rest) ctx = handle_hooks rest ctx))
    ∧ (∀ exc, hook.outcome = HookOutcome.raised exc →
      (hook.required = true →
        handle_hooks (hook :: rest) ctx = HookRunResult.raisedExc exc ctx)
      ∧ (hook.required = false →
        handle_hooks (hook :: rest) ctx = handle_hooks rest ctx)) := by
  constructor
  · intro result houtcome hfalsy
    constructor
    · intro hreq
      simp [handle_hooks, henabled, houtcome, hfalsy, hreq]
    · intro hreq
      simp [handle_hooks, henabled, houtcome, hfalsy, hreq]
  · intro exc houtcome
    constructor
    · intro hreq
      simp [handle_hooks, henabled, houtcome, hreq]
    · intro hreq
      simp [handle_hooks, henabled, houtcome, hreq]

/-- Witness for C6: a required hook returning `False` exits with status 1;
the same hook marked optional lets the (empty) remainder complete. -/
theorem handle_hooks_failure_policy_witness :
    (handle_hooks
        [Hook.mk "h.fail" Option.none true true
          (HookOutcome.returned (HookVal.boolV false))]
        (HookCtx.mk [])
      = HookRunResult.exited 1 (HookCtx.mk []))
    ∧ (handle_hooks
        [Hook.mk "h.fail" Option.none false true
          (HookOutcome.returned (HookVal.boolV false))]
        (HookCtx.mk [])
      = handle_hooks [] (HookCtx.mk [])) :=
  ⟨((handle_hooks_failure_policy
      (Hook.mk "h.fail" Option.none true true
        (HookOutcome.returned (HookVal.boolV false)))
      [] (HookCtx.mk []) rfl).1 (HookVal.boolV false) rfl rfl).1 rfl,
   ((handle_hooks_failure_policy
      (Hook.mk "h.fail" Option.none false true
        (HookOutcome.returned (HookVal.boolV false)))
      [] (HookCtx.mk []) rfl).1 (HookVal.boolV false) rfl rfl).2 rfl⟩

/-- C9 (confirmed): a hook whose handler returns an empty mapping is treated
as failed (the empty mapping is falsy): required ⇒ `sys.exit(1)`, optional ⇒
only a warning and the run continues — and in neither case is the empty
result stored in the context's hook data, even when a `data_key` is
configured. -/
theorem handle_hooks_empty_mapping (hook : Hook) (rest : List Hook)
    (ctx : HookCtx) (data_key : String)
    (henabled : hook.enabled = true)
    (houtcome : hook.outcome = HookOutcome.returned (HookVal.mapV []))
    (hkey : hook.data_key = Option.some data_key) :
    (hook.required = true →
      handle_hooks (hook :: rest) ctx = HookRunResult.exited 1 ctx)
    ∧ (hook.required = false →
      handle_hooks (hook :: rest) ctx = handle_hooks rest ctx) := by
  constructor
  · intro hreq
    simp [handle_hooks, henabled, houtcome, hreq, hookTruthy]
  · intro hreq
    simp [handle_hooks, henabled, houtcome, hreq, hookTruthy]

/-- Witness for C9: an optional hook with a configured `data_key` returning
`{}` leaves the context's hook data untouched. -/
theorem handle_hooks_empty_mapping_witness :
    handle_hooks
        [Hook.mk "h.empty" (Option.some "k") false true
          (HookOutcome.returned (HookVal.mapV []))]
        (HookCtx.mk [("old", [("a", PyVal.int 1)])])
      = handle_hooks [] (HookCtx.mk [("old", [("a", PyVal.int 1)])]) :=
  (handle_hooks_empty_mapping
    (Hook.mk "h.empty" (Option.some "k") false true
      (HookOutcome.returned (HookVal.mapV [])))
    [] (HookCtx.mk [("old", [("a", PyVal.int 1)])]) "k" rfl rfl rfl).2 rfl

/-! ## Diff action per-stack operation — `src/src/runway/cfngin/actions/diff.py`

`Action._diff_stack` consults its collaborators (the cancellation event,
`build.should_submit`, `build.should_update`, and the provider's
`get_stack_changes`); these live outside the excerpt and are modelled as
the operation's inputs.  The status objects come from
`runway.cfngin.status` (also outside the excerpt) and are modelled from the
spec's status list. -/

/-- Stack statuses returned by `_diff_stack` (`INTERRUPTED`,
`NotSubmittedStatus()`, `NotUpdatedStatus()`, `COMPLETE`). -/
inductive Status
| interrupted
| notSubmitted
| notUpdated
| complete
deriving DecidableEq

/-- Behaviour of `provider.get_stack_changes`: outputs on success, the
`StackDidNotChange` exception, or any other exception. -/
inductive GetChangesResult
| outputs (o : List (String × PyVal))
| stackDidNotChange
| otherError (exc : String)
deriving DecidableEq

/-- Translation of `Action._diff_stack`: an early return on cancellation,
`should_submit` and `should_update`; then `get_stack_changes` — its outputs
are stored on the stack, a `StackDidNotChange` is caught and logged, any
other exception propagates — and the operation returns `COMPLETE` together
with the stack's (possibly updated) outputs. -/
def diff_stack (cancelled should_submit should_update : Bool)
    (stack_outputs : Option (List (String × PyVal)))
    (get_stack_changes : GetChangesResult) :
    Except String (Status × Option (List (String × PyVal))) :=
  if cancelled then Except.ok (Status.interrupted, stack_outputs)
  else if !should_submit then Except.ok (Status.notSubmitted, stack_outputs)
  else if !should_update then Except.ok (Status.notUpdated, stack_outputs)
  else
    match get_stack_changes with
    | GetChangesResult.outputs o =>
        Except.ok (Status.complete, Option.some o)
    | GetChangesResult.stackDidNotChange =>
        Except.ok (Status.complete, stack_outputs)
    | GetChangesResult.otherError exc => Except.error exc

/-- C8 (confirmed): whatever the cancellation and submit/update flags, a
`StackDidNotChange` from the provider never surfaces as an error of
`_diff_stack`; on the path that actually calls the provider (not
cancelled, submit and update allowed) the exception is caught and the
operation still returns `COMPLETE`, leaving the stack outputs untouched. -/
theorem diff_stack_no_change_complete
    (stack_outputs : Option (List (String × PyVal))) :
    (∀ cancelled should_submit should_update,
      (diff_stack cancelled should_submit should_update stack_outputs
        GetChangesResult.stackDidNotChange).isOk = true)
    ∧ diff_stack false true true stack_outputs
        GetChangesResult.stackDidNotChange
      = Except.ok (Status.complete, stack_outputs) := by
  constructor
  · intro cancelled should_submit should_update
    cases cancelled <;> cases should_submit <;> cases should_update <;>
      simp [diff_stack, Except.isOk, Except.toBool]
  · rfl

/-! ## User-data templating — `parse_user_data` in
`src/runway/cfngin/blueprints/base.py`

`parse_user_data` delegates to `string.Template(raw).substitute(mapping)`
from the Python standard library and wraps its `ValueError` as
`InvalidUserdataPlaceholder` and its `KeyError` as `MissingVariable`.  We
model the default `$`-pattern of `string.Template`: `$$` is an escaped
dollar; `$name` and `${name}` (identifier = `[_a-z][_a-z0-9]*`, case
insensitive) substitute `str()` of the mapping value; any other
`$`-sequence raises `ValueError`; a missing name raises `KeyError`. -/

/-- Identifier-start character of the template pattern. -/
def isIdStart (c : Char) : Bool := c.isAlpha || c == '_'

/-- Identifier-continue character of the template pattern. -/
def isIdCont (c : Char) : Bool := c.isAlphanum || c == '_'

/-- Errors of `Template.substitute`: `ValueError` on an invalid placeholder,
`KeyError` on an unknown name. -/
inductive TmplErr
| invalidPlaceholder
| keyError (name : String)
deriving DecidableEq

mutual

/-- Left-to-right scan of `Template.substitute` over the raw characters
(plain-text state): `$$` escapes, `${` enters the braced state, `$` before
an identifier-start character enters the unbraced state, any other
`$`-sequence is an invalid placeholder. -/
def substChars (mapping : List (String × PyVal)) :
    List Char → Except TmplErr (List Char)
| [] => Except.ok []
| c :: rest =>
  if c = '$' then
    match rest with
    | [] => Except.error TmplErr.invalidPlaceholder
    | d :: rest2 =>
      if d = '$' then (substChars mapping rest2).map (fun out => '$' :: out)
      else if d = '{' then
        match rest2 with
        | [] => Except.error TmplErr.invalidPlaceholder
        | e :: rest3 =>
          if isIdStart e then substBraced mapping [e] rest3
          else Except.error TmplErr.invalidPlaceholder
      else if isIdStart d then substNamed mapping [d] rest2
      else Except.error TmplErr.invalidPlaceholder
  else (substChars mapping rest).map (fun out => c :: out)
termination_by l => (l.length, 0)

/-- Scan state inside a `${...}` placeholder; `acc` holds the identifier
characters read so far, in reverse.  The identifier is maximal, must be
closed by `}` and is substituted by `str()` of its mapping value; a missing
name is a `KeyError`, anything else an invalid placeholder. -/
def substBraced (mapping : List (String × PyVal)) (acc : List Char) :
    List Char → Except TmplErr (List Char)
| [] => Except.error TmplErr.invalidPlaceholder
| c :: rest =>
  if isIdCont c then substBraced mapping (c :: acc) rest
  else if c = '}' then
    match List.lookup (String.mk acc.reverse) mapping with
    | Option.some v =>
        (substChars mapping rest).map (fun out => (pyStr v).data ++ out)
    | Option.none => Except.error (TmplErr.keyError (String.mk acc.reverse))
  else Except.error TmplErr.invalidPlaceholder
termination_by l => (l.length, 1)

/-- Scan state inside an unbraced `$name` placeholder; `acc` holds the
identifier characters read so far, in reverse.  The identifier is maximal
and is substituted by `str()` of its mapping value; a missing name is a
`KeyError`. -/
def substNamed (mapping : List (String × PyVal)) (acc : List Char) :
    List Char → Except TmplErr (List Char)
| [] =>
  (match List.lookup (String.mk acc.reverse) mapping with
   | Option.some v => Except.ok (pyStr v).data
   | Option.none => Except.error (TmplErr.keyError (String.mk acc.reverse)))
| c :: rest =>
  if isIdCont c then substNamed mapping (c :: acc) rest
  else
    match List.lookup (String.mk acc.reverse) mapping with
    | Option.some v =>
        (substChars mapping (c :: rest)).map (fun out => (pyStr v).data ++ out)
    | Option.none => Except.error (TmplErr.keyError (String.mk acc.reverse))
termination_by l => (l.length, 1)

end

/-- Translation of `string.Template(s).substitute(mapping)`. -/
def template_substitute (mapping : List (String × PyVal)) (s : String) :
    Except TmplErr String :=
  (substChars mapping s.data).map String.mk

/-- Value a resolved variable contributes to the template mapping: a
`CFNParameter` contributes `to_parameter_value()`, anything else itself. -/
def to_template_value : ResolvedValue → PyVal
| ResolvedValue.cfnParam p => p.value
| ResolvedValue.plain v => v
| ResolvedValue.tropo v => v

/-- Translation of `parse_user_data`: build `variable_values` from the
resolved variables (unwrapping `CFNParameter`s), substitute, and wrap
`ValueError` as `InvalidUserdataPlaceholder` and `KeyError` as
`MissingVariable`. -/
def parse_user_data (vars : List (String × ResolvedValue))
    (raw_user_data : String) (blueprint_name : String) :
    Except CfnginError String :=
  let variable_values := vars.map (fun kv => (kv.1, to_template_value kv.2))
  match template_substitute variable_values raw_user_data with
  | Except.ok res => Except.ok res
  | Except.error TmplErr.invalidPlaceholder =>
      Except.error (CfnginError.invalidUserdataPlaceholder blueprint_name
        "Invalid placeholder in string")
  | Except.error (TmplErr.keyError name) =>
      Except.error (CfnginError.missingVariable blueprint_name name)

/-- Valid identifier of the template pattern. -/
def validIdent (s : String) : Bool :=
  match s.data with
  | [] => false
  | c :: cs => isIdStart c && cs.all isIdCont

/-- Rendering of the `${name}` placeholder for a given name. -/
def braced (name : String) : String :=
  String.mk ('$' :: '{' :: (name.data ++ ['}']))

lemma string_mk_data (s : String) : String.mk s.data = s := rfl

lemma string_append_data (a b : String) : a ++ b = String.mk (a.data ++ b.data) := by
  cases a
  cases b
  rfl

lemma substChars_cons_ne (mapping : List (String × PyVal)) (c : Char)
    (l : List Char) (hc : ¬ c = '$') :
    substChars mapping (c :: l)
      = (substChars mapping l).map (fun out => c :: out) := by
  rw [substChars.eq_def]
  simp [hc]

lemma substChars_append (mapping : List (String × PyVal)) (l₁ l₂ : List Char)
    (h : ∀ c ∈ l₁, ¬ c = '$') :
    substChars mapping (l₁ ++ l₂)
      = (substChars mapping l₂).map (fun out => l₁ ++ out) := by
  induction l₁ with
  | nil =>
    simp only [List.nil_append]
    cases substChars mapping l₂ <;> rfl
  | cons c cs ih =>
    have hc := h c (List.mem_cons_self c cs)
    rw [List.cons_append, substChars_cons_ne mapping c _ hc,
      ih (fun x hx => h x (List.mem_cons_of_mem c hx))]
    cases substChars mapping l₂ <;> rfl

lemma substChars_no_dollar (mapping : List (String × PyVal)) (l : List Char)
    (h : ∀ c ∈ l, ¬ c = '$') : substChars mapping l = Except.ok l := by
  have hap := substChars_append mapping l [] h
  simp only [List.append_nil] at hap
  rw [hap]
  rw [substChars.eq_def]
  simp [Except.map]

lemma substBraced_append (mapping : List (String × PyVal))
    (acc ident l : List Char) (hid : ∀ x ∈ ident, isIdCont x = true) :
    substBraced mapping acc (ident ++ '}' :: l)
      = match List.lookup (String.mk (acc.reverse ++ ident)) mapping with
        | Option.some v =>
            (substChars mapping l).map (fun out => (pyStr v).data ++ out)
        | Option.none =>
            Except.error (TmplErr.keyError (String.mk (acc.reverse ++ ident))) := by
  induction ident generalizing acc with
  | nil =>
    have h1 : isIdCont ('}') = false := by decide
    rw [List.nil_append, substBraced.eq_def]
    cases hl : List.lookup (String.mk acc.reverse) mapping with
    | none => simp [h1, hl]
    | some v => simp [h1, hl]
  | cons c cs ih =>
    have hc : isIdCont c = true := hid c (List.mem_cons_self c cs)
    rw [List.cons_append, substBraced.eq_def]
    simp only [hc, if_true]
    rw [ih (c :: acc) (fun x hx => hid x (List.mem_cons_of_mem c hx))]
    simp [List.reverse_cons, List.append_assoc]

lemma substChars_braced (mapping : List (String × PyVal)) (e : Char)
    (ident l : List Char)
    (he : isIdStart e = true) (hid : ∀ x ∈ ident, isIdCont x = true) :
    substChars mapping ('$' :: '{' :: e :: (ident ++ '}' :: l))
      = match List.lookup (String.mk (e :: ident)) mapping with
        | Option.some v =>
            (substChars mapping l).map (fun out => (pyStr v).data ++ out)
        | Option.none =>
            Except.error (TmplErr.keyError (String.mk (e :: ident))) := by
  rw [substChars.eq_def]
  simp only [he]
  rw [substBraced_append mapping [e] ident l hid]
  simp

lemma substChars_braced_invalid (mapping : List (String × PyVal)) (e : Char)
    (l : List Char) (he : isIdStart e = false) :
    substChars mapping ('$' :: '{' :: e :: l)
      = Except.error TmplErr.invalidPlaceholder := by
  rw [substChars.eq_def]
  simp [he]

lemma lookup_map_to_template (vars : List (String × ResolvedValue)) (k : String) :
    (vars.map (fun kv => (kv.1, to_template_value kv.2))).lookup k
      = (vars.lookup k).map to_template_value := by
  induction vars with
  | nil => rfl
  | cons p t ih =>
    rw [List.map_cons, List.lookup, List.lookup]
    cases hbeq : (k == p.1) <;> simp [hbeq, ih]

/-! ## Claim C7 — user-data templating -/

/-- C7 (confirmed): a `${name}` placeholder in otherwise `$`-free text is
substituted by the already-resolved variable of that name (a
`CFNParameter` contributing its parameter value); a placeholder naming a
variable missing from the mapping raises `MissingVariable`; an invalid
placeholder token such as `${100}` raises `InvalidUserdataPlaceholder`. -/
theorem parse_user_data_spec (vars : List (String × ResolvedValue))
    (blueprint_name pre post post2 name : String) (v : ResolvedValue)
    (hpre : ∀ c ∈ pre.data, ¬ c = '$')
    (hpost : ∀ c ∈ post.data, ¬ c = '$')
    (hname : validIdent name = true) :
    (vars.lookup name = Option.some v →
      parse_user_data vars (pre ++ braced name ++ post) blueprint_name
        = Except.ok (pre ++ pyStr (to_template_value v) ++ post))
    ∧ (vars.lookup name = Option.none →
      parse_user_data vars (pre ++ braced name ++ post2) blueprint_name
        = Except.error (CfnginError.missingVariable blueprint_name name))
    ∧ parse_user_data vars (pre ++ "${100}" ++ post2) blueprint_name
        = Except.error (CfnginError.invalidUserdataPlaceholder blueprint_name
            "Invalid placeholder in string") := by
  obtain ⟨e, cs, hdata, hstart, hcont⟩ :
      ∃ e cs, name.data = e :: cs ∧ isIdStart e = true
        ∧ ∀ x ∈ cs, isIdCont x = true := by
    unfold validIdent at hname
    cases hd : name.data with
    | nil => rw [hd] at hname; simp at hname
    | cons e cs =>
      rw [hd] at hname
      simp only [Bool.and_eq_true, List.all_eq_true] at hname
      exact ⟨e, cs, rfl, hname.1, fun x hx => hname.2 x hx⟩
  have hmk : String.mk (e :: cs) = name := by rw [← hdata]
  refine ⟨?_, ?_, ?_⟩
  · intro hlook
    have hd2 : (pre ++ braced name ++ post).data
        = pre.data ++ ('$' :: '{' :: e :: (cs ++ '}' :: post.data)) := by
      simp [String.data_append, braced, hdata]
    simp only [parse_user_data, template_substitute]
    rw [hd2, substChars_append _ _ _ hpre,
      substChars_braced _ e cs post.data hstart hcont, hmk,
      lookup_map_to_template, hlook, substChars_no_dollar _ _ hpost]
    simp only [Option.map_some, Except.map]
    rw [string_append_data pre (pyStr (to_template_value v)),
      string_append_data]
    simp [List.append_assoc]
  · intro hlook
    have hd2 : (pre ++ braced name ++ post2).data
        = pre.data ++ ('$' :: '{' :: e :: (cs ++ '}' :: post2.data)) := by
      simp [String.data_append, braced, hdata]
    simp only [parse_user_data, template_substitute]
    rw [hd2, substChars_append _ _ _ hpre,
      substChars_braced _ e cs post2.data hstart hcont, hmk,
      lookup_map_to_template, hlook]
    simp [Except.map]
  · have hlit : ("${100}" : String).data
        = '$' :: '{' :: '1' :: ['0', '0', '}'] := rfl
    have hd3 : (pre ++ "${100}" ++ post2).data
        = pre.data ++ ('$' :: '{' :: '1' :: (['0', '0', '}'] ++ post2.data)) := by
      simp [String.data_append, hlit, List.append_assoc]
    simp only [parse_user_data, template_substitute]
    rw [hd3, substChars_append _ _ _ hpre,
      substChars_braced_invalid _ '1' _ (by decide)]
    simp [Except.map]

/-- Witness for C7: `"open file ${file}"` with `{file: "test.txt"}`
resolves to `"open file test.txt"`. -/
theorem parse_user_data_spec_witness :
    parse_user_data [("file", ResolvedValue.plain (PyVal.str "test.txt"))]
        "open file ${file}" "bp"
      = Except.ok "open file test.txt" := by
  have h := (parse_user_data_spec
      [("file", ResolvedValue.plain (PyVal.str "test.txt"))]
      "bp" "open file " "" "" "file"
      (ResolvedValue.plain (PyVal.str "test.txt"))
      (by decide) (by decide) (by decide)).1 rfl
  have e1 : ("open file " ++ braced "file" ++ "" : String) = "open file ${file}" := by
    decide
  have e2 : ("open file "
        ++ pyStr (to_template_value (ResolvedValue.plain (PyVal.str "test.txt")))
        ++ "" : String)
      = "open file test.txt" := by decide
  rw [e1, e2] at h
  exact h

end Runway
